import Mathlib

set_option autoImplicit false

/-!
Shallow embedding of `src/main.py` (google-lens-crawl-python): a one-shot
batch job that, for each `(id, image-url)` pair of an input JSON mapping,
drives a browser-automation session through the steps
navigate / no-image check / click / extract, and writes one CSV row per
successfully fetched item.

The external collaborator (the browser plus the rendered page) is modelled
by `DriverWorld`, a deterministic description of how each automation step
behaves for one item.  Following the collaborator interface assumed by the
program: an explicit wait either finds the element or times out;
Selenium's `find_element` raises `NoSuchElementException` when the selector
matches nothing (it never returns a falsy value); `get_attribute` returns
Python `None` when the attribute is absent.
-/

/-- A Python value as it occurs in the dicts built by `main.py`:
a string, an integer, or Python `None`. -/
inductive PyVal where
  | str : String → PyVal
  | int : Int → PyVal
  | none : PyVal
  deriving DecidableEq, Repr

/-- A Python dict with string keys, as an association list. -/
abbrev PyDict := List (String × PyVal)

/-- Python `d.get(key, dflt)`: the stored value when the key is present,
the default only when the key is absent. -/
def dictGet (d : PyDict) (k : String) (dflt : PyVal) : PyVal :=
  match d.lookup k with
  | some v => v
  | Option.none => dflt

/-- Lift a value that may be Python `None` into `PyVal`. -/
def optStr : Option String → PyVal
  | some s => PyVal.str s
  | Option.none => PyVal.none

/-- Deterministic behaviour of the browser and of the page rendered for one
item.  Attempt-indexed fields model operations that sit inside a retry loop
in `main.py` (a fresh try may behave differently). -/
structure DriverWorld where
  /-- does `webdriver.Chrome(...)` succeed on the n-th attempt (0-based)? -/
  initSucceedsOn : Nat → Bool
  /-- does `driver.get(lens_url)` succeed on the n-th attempt
  (`false` covers both `TimeoutException` and any other exception:
  `main.py` treats them identically)? -/
  navSucceedsOn : Nat → Bool
  /-- does the "No image at that URL" element appear within the 10s wait? -/
  noImagePresent : Bool
  /-- does wait-for-button-then-click succeed on the n-th attempt? -/
  clickSucceedsOn : Nat → Bool
  /-- does the first result entry `li.anSuc a.GZrdsf` render within the 60s wait? -/
  firstResultPresent : Bool
  /-- text of the `.iJmjmd` sub-element; `Option.none` when that
  sub-element is absent from the page. -/
  titleElem : Option String
  /-- text of the `.ShWW9` sub-element; `Option.none` when absent. -/
  sourceElem : Option String
  /-- value of the `href` attribute of the result anchor;
  `Option.none` when the attribute is absent. -/
  hrefAttr : Option String

/-- Outcome of `init_driver`: whether a driver was returned, how many
attempts were made, and the total seconds slept (`time.sleep(2)` runs once
after every failed attempt). -/
structure InitResult where
  success : Bool
  attemptsMade : Nat
  sleepSeconds : Nat
  deriving DecidableEq, Repr

/-- The `while attempt < retries` loop of `init_driver`, with
`fuel = retries - attempt` remaining iterations. -/
def init_driver_go (w : DriverWorld) (attempt : Nat) : Nat → InitResult
  | 0 => { success := false, attemptsMade := attempt, sleepSeconds := 2 * attempt }
  | Nat.succ fuel =>
      if w.initSucceedsOn attempt then
        { success := true, attemptsMade := attempt + 1, sleepSeconds := 2 * attempt }
      else
        init_driver_go w (attempt + 1) fuel

/-- `init_driver(retries=3)` of `main.py`: retry WebDriver initialization;
on exhaustion the Python code raises (modelled as `success = false`, which
callers propagate as an error). -/
def init_driver (w : DriverWorld) (retries : Nat := 3) : InitResult :=
  init_driver_go w 0 retries

/-- The provider query URL built by `navigate_to_lens`. -/
def lens_url (image_url : String) : String :=
  "https://lens.google.com/uploadbyurl?url=" ++ image_url

/-- The `while attempt < retries` loop of `navigate_to_lens`. -/
def navigate_to_lens_go (w : DriverWorld) (attempt : Nat) : Nat → Bool
  | 0 => false
  | Nat.succ fuel =>
      if w.navSucceedsOn attempt then true
      else navigate_to_lens_go w (attempt + 1) fuel

/-- `navigate_to_lens(driver, image_url, timeout=60, retries=1)`: returns
`True` on a successful page load, `False` once the attempts are exhausted
(every exception is caught inside the loop). -/
def navigate_to_lens (w : DriverWorld) (timeout : Nat := 60) (retries : Nat := 1) : Bool :=
  navigate_to_lens_go w 0 retries

/-- `check_no_image_error(driver)`: `True` when the "No image at that URL"
element shows up within the 10s wait (the element object is truthy), `False`
on `TimeoutException`. -/
def check_no_image_error (w : DriverWorld) : Bool :=
  w.noImagePresent

/-- The `while attempt < retries` loop of `wait_and_click_find_image_source`. -/
def wait_and_click_find_image_source_go (w : DriverWorld) (attempt : Nat) : Nat → Bool
  | 0 => false
  | Nat.succ fuel =>
      if w.clickSucceedsOn attempt then true
      else wait_and_click_find_image_source_go w (attempt + 1) fuel

/-- `wait_and_click_find_image_source(driver, retries=1)`. -/
def wait_and_click_find_image_source (w : DriverWorld) (retries : Nat := 1) : Bool :=
  wait_and_click_find_image_source_go w 0 retries

/-- The dict literal returned by a successful `extract_first_image_metadata`
attempt: all four keys are always present; `link` holds Python `None` when
the `href` attribute was absent. -/
def metaDict (t s : String) (href : Option String) : PyDict :=
  [("position", PyVal.int 1), ("title", PyVal.str t),
   ("source", PyVal.str s), ("link", optStr href)]

/-- One attempt of the `try` body of `extract_first_image_metadata`:
wait for the first result entry (timeout raises), then
`element.find_element('.iJmjmd').text if element.find_element('.iJmjmd') else None`.
Since `find_element` raises `NoSuchElementException` when the sub-element is
absent, a missing title or source sub-element aborts the attempt (the
`else None` branch is unreachable); `get_attribute('href')` merely returns
`None` when the attribute is absent.  `Option.none` stands for "the attempt
raised" (every exception is caught by the enclosing loop). -/
def extract_attempt (w : DriverWorld) : Option PyDict :=
  match w.firstResultPresent, w.titleElem, w.sourceElem with
  | true, some t, some s => some (metaDict t s w.hrefAttr)
  | _, _, _ => Option.none

/-- The `while attempt < retries` loop of `extract_first_image_metadata`. -/
def extract_first_image_metadata_go (w : DriverWorld) (attempt : Nat) : Nat → Option PyDict
  | 0 => Option.none
  | Nat.succ fuel =>
      match extract_attempt w with
      | some d => some d
      | Option.none => extract_first_image_metadata_go w (attempt + 1) fuel

/-- `extract_first_image_metadata(driver, retries=1)`: the metadata dict on
success, `None` once the attempts are exhausted. -/
def extract_first_image_metadata (w : DriverWorld) (retries : Nat := 1) : Option PyDict :=
  extract_first_image_metadata_go w 0 retries

/-- The `try` body of `get_first_image_metadata`, after the driver was
obtained: each step that fails short-circuits to `None` (the Python early
returns). -/
def fetch_body (w : DriverWorld) : Option PyDict :=
  match navigate_to_lens w with
  | false => Option.none
  | true =>
      match check_no_image_error w with
      | true => Option.none
      | false =>
          match wait_and_click_find_image_source w with
          | false => Option.none
          | true => extract_first_image_metadata w

/-- What one call of `get_first_image_metadata` did: its result
(`Except.error ()` models the uncaught exception raised when `init_driver`
exhausts its retries), and whether a session was opened / closed. -/
structure FetchRun where
  result : Except Unit (Option PyDict)
  sessionOpened : Bool
  sessionClosed : Bool

/-- `get_first_image_metadata(image_url)`: `init_driver()` runs outside the
`try`, so its failure propagates and no session exists to close; otherwise
the `try ... finally: driver.quit()` guarantees the session is closed on
every path out of the body. -/
def get_first_image_metadata (w : DriverWorld) : FetchRun :=
  match (init_driver w).success with
  | true => { result := Except.ok (fetch_body w), sessionOpened := true, sessionClosed := true }
  | false => { result := Except.error (), sessionOpened := false, sessionClosed := false }

/-- One output row, as the dict literal built by `process_image`
(fixed six keys). -/
structure OutputRow where
  id : PyVal
  url : PyVal
  position : PyVal
  title : PyVal
  source : PyVal
  link : PyVal
  deriving DecidableEq, Repr

/-- The row dict built by `process_image` on success:
`image_data.get(key, 'N/A')` for each metadata column. -/
def buildRow (image_id image_url : String) (d : PyDict) : OutputRow :=
  { id := PyVal.str image_id
    url := PyVal.str image_url
    position := dictGet d "position" (PyVal.str "N/A")
    title := dictGet d "title" (PyVal.str "N/A")
    source := dictGet d "source" (PyVal.str "N/A")
    link := dictGet d "link" (PyVal.str "N/A") }

/-- `process_image(image_id, image_url, csv_file_path)`: the per-item task
submitted to the pool.  `W` maps an image URL to the deterministic behaviour
of its fetch.  `if not image_data` is Python truthiness: `None` and the
empty dict both yield `None`. -/
def process_image (W : String → DriverWorld) (image_id image_url : String) :
    Except Unit (Option OutputRow) :=
  match (get_first_image_metadata (W image_url)).result with
  | Except.error e => Except.error e
  | Except.ok Option.none => Except.ok Option.none
  | Except.ok (some d) =>
      if d.isEmpty then Except.ok Option.none
      else Except.ok (some (buildRow image_id image_url d))

/-- The successful per-item outcome seen by the coordinator: `some row`
when the task returned a truthy dict, `Option.none` otherwise (used to
state what a completed run collects). -/
def itemRow (W : String → DriverWorld) (p : String × String) : Option OutputRow :=
  match process_image W p.1 p.2 with
  | Except.ok (some r) => some r
  | _ => Option.none

/-- Does the fetch of item `p` return a non-absent metadata dict? -/
def fetchNonAbsent (W : String → DriverWorld) (p : String × String) : Bool :=
  match (get_first_image_metadata (W p.2)).result with
  | Except.ok (some _) => true
  | _ => false

/-- The `for future in as_completed(futures)` loop of
`process_images_concurrently`, consuming per-item results in completion
order (the argument list IS the completion order).  `future.result()`
re-raises an exception stored in a future; that exception is not caught, so
it aborts the loop and the whole call (`Except.error`). -/
def collect_results (W : String → DriverWorld) :
    List (String × String) → Except Unit (List OutputRow)
  | [] => Except.ok []
  | p :: rest =>
      match process_image W p.1 p.2 with
      | Except.error e => Except.error e
      | Except.ok res =>
          match collect_results W rest with
          | Except.error e => Except.error e
          | Except.ok rows =>
              Except.ok (match res with
                         | some r => r :: rows
                         | Option.none => rows)

/-- One line of the output CSV file. -/
inductive CsvLine where
  | header : List String → CsvLine
  | row : List String → CsvLine
  deriving DecidableEq, Repr

/-- The fixed `fieldnames` list passed to `csv.DictWriter`. -/
def fieldnames : List String := ["id", "url", "position", "title", "source", "link"]

/-- How `csv` renders one cell: Python `None` becomes the empty string. -/
def csvCell : PyVal → String
  | PyVal.str s => s
  | PyVal.int n => toString n
  | PyVal.none => ""

/-- `DictWriter.writerows` renders each row dict in `fieldnames` order. -/
def rowCells (r : OutputRow) : List String :=
  [csvCell r.id, csvCell r.url, csvCell r.position,
   csvCell r.title, csvCell r.source, csvCell r.link]

/-- Is a CSV line the header line? -/
def isHeaderLine : CsvLine → Bool
  | CsvLine.header _ => true
  | CsvLine.row _ => false

/-- `process_images_concurrently(urls_data, csv_file_path, max_workers)`:
collect all completed task results, then (under `csv_lock`, the only writer)
append every collected row to the file in one write.  On an uncaught
per-task exception the write is never reached and the file is unchanged. -/
def process_images_concurrently (W : String → DriverWorld)
    (order : List (String × String)) (file : List CsvLine) :
    Except Unit (List CsvLine) :=
  match collect_results W order with
  | Except.error e => Except.error e
  | Except.ok rows => Except.ok (file ++ rows.map (fun r => CsvLine.row (rowCells r)))

/-- `open(csv_file_path, mode='w')` truncates the file, then
`writer.writeheader()` writes the header line. -/
def writeHeader (oldFile : List CsvLine) : List CsvLine :=
  [CsvLine.header fieldnames]

/-- The observable outcome of one run of `main` (after argument parsing and
input loading): whether the run completed, and the final file contents. -/
structure RunOutcome where
  completed : Bool
  file : List CsvLine
  deriving DecidableEq, Repr

/-- `main()` from the CSV setup on: truncate and write the header, then run
the batch; an uncaught exception leaves the file with just the header. -/
def mainRun (W : String → DriverWorld) (order : List (String × String))
    (oldFile : List CsvLine) : RunOutcome :=
  match process_images_concurrently W order (writeHeader oldFile) with
  | Except.error _ => { completed := false, file := writeHeader oldFile }
  | Except.ok f => { completed := true, file := f }

/-! ### Sample worlds used by concrete evaluations -/

/-- An item whose whole pipeline succeeds, all metadata present. -/
def wOK : DriverWorld :=
  { initSucceedsOn := fun _ => true
    navSucceedsOn := fun _ => true
    noImagePresent := false
    clickSucceedsOn := fun _ => true
    firstResultPresent := true
    titleElem := some "T1"
    sourceElem := some "S1"
    hrefAttr := some "L1" }

/-- An item for which the page shows "No image at that URL". -/
def wNoMatch : DriverWorld := { wOK with noImagePresent := true }

/-- An item whose WebDriver initialization fails on every attempt. -/
def wInitFail : DriverWorld := { wOK with initSucceedsOn := fun _ => false }

/-- A successful fetch whose result anchor has no `href` attribute. -/
def wNoHref : DriverWorld := { wOK with hrefAttr := Option.none }

/-- A rendered first result whose `.iJmjmd` title sub-element is absent. -/
def wNoTitle : DriverWorld := { wOK with titleElem := Option.none }

/-- Two-item scenario: `"a"` matches, `"b"` hits the no-match page. -/
def Wab : String → DriverWorld :=
  fun u => if u = "http://x/1.png" then wOK else wNoMatch

/-- A collaborator whose session initialization always fails. -/
def Wfail : String → DriverWorld := fun _ => wInitFail

def pa : String × String := ("a", "http://x/1.png")

def pb : String × String := ("b", "http://x/2.png")

/-- The output row the scenario produces for item `"a"`. -/
def rowA : OutputRow :=
  { id := PyVal.str "a", url := PyVal.str "http://x/1.png",
    position := PyVal.int 1, title := PyVal.str "T1",
    source := PyVal.str "S1", link := PyVal.str "L1" }

/-- The metadata dict the fully successful world produces. -/
def dOK : PyDict := metaDict "T1" "S1" (some "L1")

/-! ### Helper lemmas -/

theorem init_driver_go_spec (w : DriverWorld) :
    ∀ (fuel attempt : Nat),
      (init_driver_go w attempt fuel).attemptsMade ≤ attempt + fuel ∧
      (init_driver_go w attempt fuel).sleepSeconds =
        2 * ((init_driver_go w attempt fuel).attemptsMade -
          (if (init_driver_go w attempt fuel).success then 1 else 0)) := by
  intro fuel
  induction fuel with
  | zero => intro attempt; exact ⟨Nat.le_refl _, rfl⟩
  | succ fuel ih =>
    intro attempt
    unfold init_driver_go
    by_cases h : w.initSucceedsOn attempt = true
    · rw [if_pos h]
      exact ⟨Nat.succ_le_succ (Nat.le_add_right attempt fuel), rfl⟩
    · rw [if_neg h]
      have h2 := ih (attempt + 1)
      exact ⟨le_trans h2.1 (by omega), h2.2⟩

theorem extract_go_some (w : DriverWorld) :
    ∀ (fuel attempt : Nat) (d : PyDict),
      extract_first_image_metadata_go w attempt fuel = some d →
      extract_attempt w = some d := by
  intro fuel
  induction fuel with
  | zero => intro attempt d h; exact Option.noConfusion h
  | succ fuel ih =>
    intro attempt d h
    unfold extract_first_image_metadata_go at h
    split at h
    case h_1 d2 heq => exact heq.trans h
    case h_2 heq => exact ih _ d h

theorem extract_attempt_shape (w : DriverWorld) (d : PyDict)
    (h : extract_attempt w = some d) :
    ∃ t s, w.titleElem = some t ∧ w.sourceElem = some s ∧
      d = metaDict t s w.hrefAttr := by
  unfold extract_attempt at h
  cases hfr : w.firstResultPresent <;> rw [hfr] at h
  · exact Option.noConfusion h
  · cases ht : w.titleElem <;> rw [ht] at h
    · exact Option.noConfusion h
    · cases hs : w.sourceElem <;> rw [hs] at h
      · exact Option.noConfusion h
      · exact ⟨_, _, rfl, rfl, (Option.some.inj h).symm⟩

theorem fetch_result_ok_some (w : DriverWorld) (d : PyDict)
    (h : (get_first_image_metadata w).result = Except.ok (some d)) :
    extract_attempt w = some d := by
  unfold get_first_image_metadata at h
  cases hi : (init_driver w).success <;> rw [hi] at h
  · exact absurd h (by simp)
  · simp only [Except.ok.injEq] at h
    unfold fetch_body at h
    cases hn : navigate_to_lens w <;> rw [hn] at h
    · exact Option.noConfusion h
    · cases hc : check_no_image_error w <;> rw [hc] at h
      · cases hk : wait_and_click_find_image_source w <;> rw [hk] at h
        · exact Option.noConfusion h
        · exact extract_go_some w 1 0 d h
      · exact Option.noConfusion h

theorem fetch_result_ok_some_shape (w : DriverWorld) (d : PyDict)
    (h : (get_first_image_metadata w).result = Except.ok (some d)) :
    ∃ t s, w.titleElem = some t ∧ w.sourceElem = some s ∧
      d = metaDict t s w.hrefAttr :=
  extract_attempt_shape w d (fetch_result_ok_some w d h)

theorem fetch_result_ok_some_nonempty (w : DriverWorld) (d : PyDict)
    (h : (get_first_image_metadata w).result = Except.ok (some d)) :
    d.isEmpty = false := by
  rcases fetch_result_ok_some_shape w d h with ⟨t, s, _, _, rfl⟩
  rfl

theorem process_image_error_of_init (W : String → DriverWorld) (i u : String)
    (h : (init_driver (W u)).success = false) :
    process_image W i u = Except.error () := by
  unfold process_image get_first_image_metadata
  rw [h]

theorem process_image_of_init (W : String → DriverWorld) (i u : String)
    (h : (init_driver (W u)).success = true) :
    process_image W i u = Except.ok (itemRow W (i, u)) := by
  unfold itemRow process_image get_first_image_metadata
  rw [h]
  cases hfb : fetch_body (W u) with
  | none => rfl
  | some d =>
    cases d with
    | nil => rfl
    | cons kv tl => rfl

theorem process_image_ok_some (W : String → DriverWorld) (i u : String) (r : OutputRow)
    (h : process_image W i u = Except.ok (some r)) :
    ∃ d, (get_first_image_metadata (W u)).result = Except.ok (some d) ∧
      r = buildRow i u d := by
  unfold process_image at h
  cases hres : (get_first_image_metadata (W u)).result with
  | error e => rw [hres] at h; exact Except.noConfusion h
  | ok od =>
    rw [hres] at h
    cases od with
    | none => simp at h
    | some d =>
      cases d with
      | nil => simp at h
      | cons kv tl =>
        refine ⟨kv :: tl, rfl, ?_⟩
        simp at h
        exact h.symm

theorem itemRow_some_id_url (W : String → DriverWorld) (p : String × String) (r : OutputRow)
    (h : itemRow W p = some r) :
    r.id = PyVal.str p.1 ∧ r.url = PyVal.str p.2 := by
  unfold itemRow at h
  cases hpi : process_image W p.1 p.2 with
  | error e => rw [hpi] at h; exact Option.noConfusion h
  | ok res =>
    rw [hpi] at h
    cases res with
    | none => exact Option.noConfusion h
    | some r0 =>
      rcases process_image_ok_some W p.1 p.2 r0 hpi with ⟨d, _, rfl⟩
      cases Option.some.inj h
      exact ⟨rfl, rfl⟩

theorem itemRow_isSome_eq (W : String → DriverWorld) (p : String × String) :
    (itemRow W p).isSome = fetchNonAbsent W p := by
  unfold itemRow fetchNonAbsent process_image
  cases hres : (get_first_image_metadata (W p.2)).result with
  | error e => rfl
  | ok od =>
    cases od with
    | none => rfl
    | some d =>
      have hne := fetch_result_ok_some_nonempty (W p.2) d hres
      cases d with
      | nil => exact Bool.noConfusion hne
      | cons kv tl => rfl

theorem itemRow_none_of_fetch_absent (W : String → DriverWorld) (p : String × String)
    (h : (get_first_image_metadata (W p.2)).result = Except.ok Option.none) :
    itemRow W p = Option.none := by
  unfold itemRow process_image
  rw [h]

theorem collect_results_ok_eq (W : String → DriverWorld) :
    ∀ (order : List (String × String)) (rows : List OutputRow),
      collect_results W order = Except.ok rows →
      rows = order.filterMap (itemRow W) := by
  intro order
  induction order with
  | nil =>
    intro rows h
    simpa [collect_results] using (Except.ok.inj h).symm
  | cons p rest ih =>
    intro rows h
    unfold collect_results at h
    cases hpi : process_image W p.1 p.2 with
    | error e => rw [hpi] at h; exact Except.noConfusion h
    | ok res =>
      rw [hpi] at h
      cases hc : collect_results W rest with
      | error e => rw [hc] at h; exact Except.noConfusion h
      | ok rrows =>
        rw [hc] at h
        have hr := ih rrows hc
        have hitem : itemRow W p = res := by
          unfold itemRow
          rw [hpi]
          cases res <;> rfl
        cases Except.ok.inj h
        rw [List.filterMap_cons, hitem]
        cases res <;> rw [hr]

theorem collect_results_of_init (W : String → DriverWorld) :
    ∀ order : List (String × String),
      (∀ p ∈ order, (init_driver (W p.2)).success = true) →
      collect_results W order = Except.ok (order.filterMap (itemRow W)) := by
  intro order
  induction order with
  | nil => intro _; rfl
  | cons p rest ih =>
    intro h
    have hp := h p (List.mem_cons_self p rest)
    have hrest := ih (fun q hq => h q (List.mem_cons_of_mem p hq))
    unfold collect_results
    rw [process_image_of_init W p.1 p.2 hp, hrest, List.filterMap_cons]
    cases itemRow W (p.1, p.2) <;> rfl

theorem collect_results_error_of_mem (W : String → DriverWorld) :
    ∀ (order : List (String × String)) (p : String × String), p ∈ order →
      (init_driver (W p.2)).success = false →
      collect_results W order = Except.error () := by
  intro order
  induction order with
  | nil => intro p hp; cases hp
  | cons q rest ih =>
    intro p hp hf
    unfold collect_results
    rcases List.mem_cons.mp hp with rfl | hmem
    · rw [process_image_error_of_init W p.1 p.2 hf]
    · rw [ih p hmem hf]
      cases process_image W q.1 q.2 <;> rfl

theorem length_filterMap_eq_countP {α β : Type} (f : α → Option β) (l : List α) :
    (l.filterMap f).length = l.countP fun a => (f a).isSome := by
  induction l with
  | nil => rfl
  | cons a l ih =>
    rw [List.filterMap_cons, List.countP_cons]
    cases h : f a <;> simp [h, ih]

theorem keys_nodup_inj :
    ∀ (l : List (String × String)) (p q : String × String),
      (l.map Prod.fst).Nodup → p ∈ l → q ∈ l → p.1 = q.1 → p = q := by
  intro l
  induction l with
  | nil => intro p q _ hp; cases hp
  | cons a l ih =>
    intro p q hnd hp hq hfst
    rw [List.map_cons, List.nodup_cons] at hnd
    rcases List.mem_cons.mp hp with rfl | hp2 <;>
      rcases List.mem_cons.mp hq with rfl | hq2
    · rfl
    · exact absurd (hfst ▸ List.mem_map_of_mem Prod.fst hq2) hnd.1
    · exact absurd (hfst ▸ List.mem_map_of_mem Prod.fst hp2) hnd.1
    · exact ih p q hnd.2 hp2 hq2 hfst

theorem countP_map_row_zero (rows : List OutputRow) :
    (rows.map (fun r => CsvLine.row (rowCells r))).countP isHeaderLine = 0 := by
  induction rows with
  | nil => rfl
  | cons r rows ih => rw [List.map_cons, List.countP_cons]; simp [isHeaderLine, ih]

/-! ### Claim theorems -/

/-- Claim C1: for every input mapping (a list of id-url pairs with distinct
ids) and every completion order of its fetch tasks, a completed batch run
collects at most one output row per input record: the number of rows is at
most the input size and equals the count of items whose fetch returned a
non-absent metadata dict; every row comes from exactly one input record,
and a record whose fetch returned absent contributes no row. -/
theorem c1_output_rows_count (W : String → DriverWorld)
    (urls order : List (String × String)) (rows : List OutputRow)
    (hperm : order.Perm urls)
    (hnodup : (urls.map Prod.fst).Nodup)
    (hrows : collect_results W order = Except.ok rows) :
    rows.length ≤ urls.length ∧
    rows.length = urls.countP (fetchNonAbsent W) ∧
    (∀ r ∈ rows, ∃ p, p ∈ urls ∧ itemRow W p = some r ∧
      ∀ q, q ∈ urls → itemRow W q = some r → q = p) ∧
    (∀ p, p ∈ urls →
      (get_first_image_metadata (W p.2)).result = Except.ok Option.none →
      ∀ r ∈ rows, r.id ≠ PyVal.str p.1) := by
  have hfm := collect_results_ok_eq W order rows hrows
  subst hfm
  refine ⟨?_, ?_, ?_, ?_⟩
  · calc (order.filterMap (itemRow W)).length
        ≤ order.length := List.length_filterMap_le _ _
      _ = urls.length := hperm.length_eq
  · rw [length_filterMap_eq_countP, hperm.countP_eq]
    exact List.countP_congr (fun p _ => by rw [itemRow_isSome_eq W p])
  · intro r hr
    rcases List.mem_filterMap.mp hr with ⟨p, hpo, hpr⟩
    refine ⟨p, hperm.mem_iff.mp hpo, hpr, ?_⟩
    intro q hq hqr
    have h1 := (itemRow_some_id_url W p r hpr).1
    have h2 := (itemRow_some_id_url W q r hqr).1
    have hkey : q.1 = p.1 := PyVal.str.inj (h2.symm.trans h1)
    exact keys_nodup_inj urls q p hnodup hq (hperm.mem_iff.mp hpo) hkey
  · intro p hpu habs r hr hid
    rcases List.mem_filterMap.mp hr with ⟨q, hqo, hqr⟩
    have hqid := (itemRow_some_id_url W q r hqr).1
    have hkey : q.1 = p.1 := PyVal.str.inj (hqid.symm.trans hid)
    have hqp : q = p := keys_nodup_inj urls q p hnodup (hperm.mem_iff.mp hqo) hpu hkey
    rw [hqp, itemRow_none_of_fetch_absent W p habs] at hqr
    exact Option.noConfusion hqr

/-- Claim C2 is contradicted by the code: when the fetch succeeds but the
result anchor has no `href` attribute, the output row's `link` field holds
Python `None` (rendered by `csv` as the empty string), not the literal
string `N/A` — the `.get(key, 'N/A')` default never fires because the
metadata dict always contains the key. -/
theorem c2_missing_link_rendered_empty :
    process_image (fun _ => wNoHref) "a" "http://x/1.png" =
      Except.ok (some
        { id := PyVal.str "a", url := PyVal.str "http://x/1.png",
          position := PyVal.int 1, title := PyVal.str "T1",
          source := PyVal.str "S1", link := PyVal.none }) ∧
    csvCell PyVal.none = "" ∧
    PyVal.none ≠ PyVal.str "N/A" ∧
    ("" : String) ≠ "N/A" := by
  refine ⟨rfl, rfl, by decide, by decide⟩

/-- Claim C3: `init_driver` makes at most 3 attempts, sleeping 2 seconds
after each failed attempt; when every attempt for some submitted item
fails, the raised error is caught neither by the per-item fetch nor by the
coordinator, so the run aborts and the sink holds only the header row. -/
theorem c3_session_init_retries (w : DriverWorld) (W : String → DriverWorld)
    (order : List (String × String)) (old : List CsvLine)
    (p : String × String) (hp : p ∈ order)
    (hfail : (init_driver (W p.2)).success = false) :
    (init_driver w).attemptsMade ≤ 3 ∧
    (init_driver w).sleepSeconds =
      2 * ((init_driver w).attemptsMade -
        (if (init_driver w).success then 1 else 0)) ∧
    (mainRun W order old).completed = false ∧
    (mainRun W order old).file = [CsvLine.header fieldnames] := by
  have hspec := init_driver_go_spec w 3 0
  have habort := collect_results_error_of_mem W order p hp hfail
  unfold mainRun process_images_concurrently
  rw [habort]
  exact ⟨hspec.1, hspec.2, rfl, rfl⟩

/-- Claim C4: when an item's session is acquired but a later step fails —
navigation, the no-match page, the button click, or extraction — the item's
task returns `None` instead of raising; the coordinator drops it, the run
completes, and the file still holds one row per successful item. -/
theorem c4_step_failure_isolated (W : String → DriverWorld) (i u : String)
    (hinit : (init_driver (W u)).success = true)
    (hfail : navigate_to_lens (W u) = false ∨
             check_no_image_error (W u) = true ∨
             wait_and_click_find_image_source (W u) = false ∨
             extract_first_image_metadata (W u) = Option.none) :
    process_image W i u = Except.ok Option.none ∧
    (∀ j, itemRow W (j, u) = Option.none) ∧
    (∀ order old,
      (∀ q ∈ order, (init_driver (W q.2)).success = true) →
      (mainRun W order old).completed = true ∧
      (mainRun W order old).file =
        CsvLine.header fieldnames ::
          (order.filterMap (itemRow W)).map (fun r => CsvLine.row (rowCells r))) := by
  have hbody : fetch_body (W u) = Option.none := by
    unfold fetch_body
    cases hn : navigate_to_lens (W u) with
    | false => rfl
    | true =>
      cases hc : check_no_image_error (W u) with
      | true => rfl
      | false =>
        cases hk : wait_and_click_find_image_source (W u) with
        | false => rfl
        | true =>
          rcases hfail with h | h | h | h
          · exact absurd hn (by rw [h]; exact Bool.noConfusion)
          · exact absurd hc (by rw [h]; exact Bool.noConfusion)
          · exact absurd hk (by rw [h]; exact Bool.noConfusion)
          · exact h
  have hpi : process_image W i u = Except.ok Option.none := by
    unfold process_image get_first_image_metadata
    rw [hinit, hbody]
  refine ⟨hpi, ?_, ?_⟩
  · intro j
    unfold itemRow process_image get_first_image_metadata
    rw [hinit, hbody]
  · intro order old hall
    have hcol := collect_results_of_init W order hall
    unfold mainRun process_images_concurrently
    rw [hcol]
    exact ⟨rfl, rfl⟩

/-- Claim C5 is contradicted by the code: with the first result entry
rendered but the `.iJmjmd` title sub-element absent, `find_element` raises,
the extraction attempt fails, and after the single configured attempt the
item yields absent — a missing title sub-element does NOT become an absent
field of a returned metadata dict (only a missing `href` attribute does). -/
theorem c5_missing_title_aborts_extraction :
    wNoTitle.firstResultPresent = true ∧
    wNoTitle.titleElem = Option.none ∧
    extract_first_image_metadata wNoTitle = Option.none ∧
    (get_first_image_metadata wNoTitle).result = Except.ok Option.none ∧
    process_image (fun _ => wNoTitle) "a" "http://x/1.png" =
      Except.ok Option.none := by
  exact ⟨rfl, rfl, rfl, rfl, rfl⟩

/-- Claim C6: every collected row carries exactly the id and the url of the
input record its task was submitted for, whatever completion order the
worker pool produced. -/
theorem c6_row_id_url (W : String → DriverWorld)
    (urls order : List (String × String)) (rows : List OutputRow)
    (hperm : order.Perm urls)
    (hrows : collect_results W order = Except.ok rows) :
    ∀ r ∈ rows, ∃ p, p ∈ urls ∧ r.id = PyVal.str p.1 ∧ r.url = PyVal.str p.2 := by
  have hfm := collect_results_ok_eq W order rows hrows
  subst hfm
  intro r hr
  rcases List.mem_filterMap.mp hr with ⟨p, hpo, hpr⟩
  have hid := itemRow_some_id_url W p r hpr
  exact ⟨p, hperm.mem_iff.mp hpo, hid.1, hid.2⟩

/-- Claim C7: a session is opened exactly when `init_driver` succeeds, and
it is closed exactly when it was opened — the `try/finally` releases the
session on every path out of `get_first_image_metadata`. -/
theorem c7_session_always_released (w : DriverWorld) :
    (get_first_image_metadata w).sessionOpened = (init_driver w).success ∧
    (get_first_image_metadata w).sessionClosed =
      (get_first_image_metadata w).sessionOpened := by
  unfold get_first_image_metadata
  cases (init_driver w).success <;> exact ⟨rfl, rfl⟩

/-- Claim C8: with the deterministic collaborator fixed, two completed runs
over the same input whose tasks finish in different orders (any two
permutations of the input, covering every worker-pool size) collect the
same rows up to permutation — the same set of output rows. -/
theorem c8_concurrency_invariance (W : String → DriverWorld)
    (urls order1 order2 : List (String × String))
    (rows1 rows2 : List OutputRow)
    (h1 : order1.Perm urls) (h2 : order2.Perm urls)
    (hr1 : collect_results W order1 = Except.ok rows1)
    (hr2 : collect_results W order2 = Except.ok rows2) :
    rows1.Perm rows2 := by
  have e1 := collect_results_ok_eq W order1 rows1 hr1
  have e2 := collect_results_ok_eq W order2 rows2 hr2
  subst e1; subst e2
  exact List.Perm.filterMap _ (h1.trans h2.symm)

/-- Claim C9: whatever the file held before, the run truncates it and
writes the header with columns id, url, position, title, source, link;
all data lines are appended after it in one final write, so the header is
the first line and occurs exactly once. -/
theorem c9_header_once_first (W : String → DriverWorld)
    (order : List (String × String)) (old : List CsvLine) :
    (mainRun W order old).file.head? = some (CsvLine.header fieldnames) ∧
    (mainRun W order old).file.countP isHeaderLine = 1 ∧
    ∃ rows : List OutputRow,
      (mainRun W order old).file =
        CsvLine.header fieldnames :: rows.map (fun r => CsvLine.row (rowCells r)) := by
  unfold mainRun process_images_concurrently writeHeader
  cases hc : collect_results W order with
  | error e => exact ⟨rfl, rfl, [], rfl⟩
  | ok rows =>
    refine ⟨rfl, ?_, rows, rfl⟩
    show (CsvLine.header fieldnames ::
      rows.map (fun r => CsvLine.row (rowCells r))).countP isHeaderLine = 1
    rw [List.countP_cons, countP_map_row_zero]
    rfl

/-- Claim C10: whenever the per-item fetch returns a non-absent metadata
dict, that dict has all four keys `position`, `title`, `source`, `link`
with `position = 1`; hence `dict.get` with the `N/A` default is independent
of the default for those keys (the default is never taken), and a field
missing from the page surfaces only as the value `None` under its key
(here: an absent `href` attribute gives `link = None`), never as a missing
key. -/
theorem c10_nonabsent_result_keys (w : DriverWorld) (d : PyDict)
    (h : (get_first_image_metadata w).result = Except.ok (some d)) :
    d.lookup "position" = some (PyVal.int 1) ∧
    (d.lookup "title").isSome = true ∧
    (d.lookup "source").isSome = true ∧
    (d.lookup "link").isSome = true ∧
    (∀ k, k ∈ ["position", "title", "source", "link"] →
      ∀ x y, dictGet d k x = dictGet d k y) ∧
    (w.hrefAttr = Option.none → d.lookup "link" = some PyVal.none) := by
  rcases fetch_result_ok_some_shape w d h with ⟨t, s, _, _, rfl⟩
  refine ⟨rfl, rfl, rfl, ?_, ?_, ?_⟩
  · cases w.hrefAttr <;> rfl
  · intro k hk x y
    simp only [List.mem_cons, List.not_mem_nil, or_false] at hk
    rcases hk with rfl | rfl | rfl | rfl
    · rfl
    · rfl
    · rfl
    · show dictGet (metaDict t s w.hrefAttr) "link" x =
        dictGet (metaDict t s w.hrefAttr) "link" y
      cases w.hrefAttr <;> rfl
  · intro hhref
    rw [hhref]
    rfl

/-! ### Witnesses: the claim theorems instantiated at concrete runs -/

/-- Witness for C1: the two-item scenario (one match, one no-match page)
completes with one row out of two inputs. -/
theorem c1_output_rows_count_witness :
    collect_results Wab [pa, pb] = Except.ok [rowA] ∧
    ([rowA] : List OutputRow).length ≤ ([pa, pb] : List (String × String)).length ∧
    ([rowA] : List OutputRow).length = [pa, pb].countP (fetchNonAbsent Wab) := by
  have h := c1_output_rows_count Wab [pa, pb] [pa, pb] [rowA]
    (List.Perm.refl _) (by decide) rfl
  exact ⟨rfl, h.1, h.2.1⟩

/-- Witness for C3: with initialization failing on every attempt, the run
aborts after 3 attempts and 6 seconds of sleep, leaving only the header. -/
theorem c3_session_init_retries_witness :
    (init_driver (Wfail pa.2)).success = false ∧
    (init_driver wInitFail).attemptsMade ≤ 3 ∧
    (init_driver wInitFail).sleepSeconds =
      2 * ((init_driver wInitFail).attemptsMade -
        (if (init_driver wInitFail).success then 1 else 0)) ∧
    (mainRun Wfail [pa] []).completed = false ∧
    (mainRun Wfail [pa] []).file = [CsvLine.header fieldnames] := by
  have h := c3_session_init_retries wInitFail Wfail [pa] [] pa
    (List.mem_cons_self pa []) rfl
  exact ⟨rfl, h.1, h.2.1, h.2.2.1, h.2.2.2⟩

/-- Witness for C4: item `"b"` hits the no-match page, its task returns
`None`, and the completed run still writes the row of item `"a"`. -/
theorem c4_step_failure_isolated_witness :
    (init_driver (Wab pb.2)).success = true ∧
    check_no_image_error (Wab pb.2) = true ∧
    process_image Wab pb.1 pb.2 = Except.ok Option.none ∧
    (mainRun Wab [pa, pb] []).completed = true ∧
    (mainRun Wab [pa, pb] []).file =
      [CsvLine.header fieldnames, CsvLine.row (rowCells rowA)] := by
  have h := c4_step_failure_isolated Wab pb.1 pb.2 rfl (Or.inr (Or.inl rfl))
  have h3 := h.2.2 [pa, pb] [] (by decide)
  refine ⟨rfl, rfl, h.1, h3.1, ?_⟩
  rw [h3.2]
  rfl

/-- Witness for C6: the single collected row of the scenario carries the id
and url of input record `("a", "http://x/1.png")`. -/
theorem c6_row_id_url_witness :
    rowA.id = PyVal.str "a" ∧ rowA.url = PyVal.str "http://x/1.png" := by
  obtain ⟨p, hp, hid, hurl⟩ :=
    c6_row_id_url Wab [pa, pb] [pa, pb] [rowA] (List.Perm.refl _) rfl rowA
      (List.mem_singleton.mpr rfl)
  simp only [List.mem_cons, List.not_mem_nil, or_false] at hp
  rcases hp with rfl | rfl
  · exact ⟨hid, hurl⟩
  · exact absurd hid (by decide)

/-- Witness for C8: the two completion orders of the scenario collect the
same rows. -/
theorem c8_concurrency_invariance_witness :
    collect_results Wab [pa, pb] = Except.ok [rowA] ∧
    collect_results Wab [pb, pa] = Except.ok [rowA] ∧
    List.Perm [rowA] [rowA] := by
  refine ⟨rfl, rfl, ?_⟩
  exact c8_concurrency_invariance Wab [pa, pb] [pa, pb] [pb, pa] [rowA] [rowA]
    (List.Perm.refl _) (List.Perm.swap pa pb []) rfl rfl

/-- Witness for C10: the fully successful fetch returns the dict with all
four keys and position 1. -/
theorem c10_nonabsent_result_keys_witness :
    (get_first_image_metadata wOK).result = Except.ok (some dOK) ∧
    dOK.lookup "position" = some (PyVal.int 1) ∧
    (dOK.lookup "title").isSome = true ∧
    (dOK.lookup "source").isSome = true ∧
    (dOK.lookup "link").isSome = true := by
  have h := c10_nonabsent_result_keys wOK dOK rfl
  exact ⟨rfl, h.1, h.2.1, h.2.2.1, h.2.2.2.1⟩

